import Mathlib

/-!
Shallow embedding of `src/server.py`, a small persistence-backed chat
application server.  The storage layer (SQLite tables `conversations` and
`messages`) is modelled as an explicit `Store` value; each SQL statement of
the Python source becomes a pure operation on that value.  Wall-clock time
(`now_iso`, which reads a monotone UTC clock and renders it as an ISO-8601
string whose lexicographic order is chronological order) is modelled by the
natural-number field `Store.clock`: every call to `now_iso` returns the
current clock value and advances it, so distinct calls return
non-decreasing timestamps, as real time does.

The completions gateway `llm_chat` reads the environment variable
`LLM_API_KEY` and either produces a deterministic mock reply (no network
I/O) or issues one outbound HTTP request; the environment variable is a
parameter `api_key` and the outcome of the single network call is a
parameter `net`, so the function is pure.  JSON dictionaries with optional
keys become structures with `Option` fields (`.get(k)` is the field,
`.get(k, d)` is `.getD d`); Python's truthiness test `x or d` on strings
is `pyOr`.
-/

/-- A row of the `conversations` table (`id` INTEGER PRIMARY KEY
AUTOINCREMENT, `title`, `system_prompt`, `created_at`, `updated_at`).
Timestamps are clock readings (see module docstring). -/
structure Conversation where
  id : Nat
  title : String
  system_prompt : String
  created_at : Nat
  updated_at : Nat
  deriving Repr, DecidableEq

/-- A row of the `messages` table (`id` INTEGER PRIMARY KEY AUTOINCREMENT,
`conversation_id`, `role`, `content`, `created_at`). -/
structure Message where
  id : Nat
  conversation_id : Nat
  role : String
  content : String
  created_at : Nat
  deriving Repr, DecidableEq

/-- The SQLite database plus the wall clock.  `nextConvId` / `nextMsgId`
are the AUTOINCREMENT counters of the two tables; rows are kept in
insertion order. -/
structure Store where
  conversations : List Conversation
  messages : List Message
  nextConvId : Nat
  nextMsgId : Nat
  clock : Nat
  deriving Repr, DecidableEq

/-- `now_iso()` from the source: reads the current UTC time.  Modelled as
reading the monotone clock and advancing it (two separate calls may thus
return different, never decreasing, values). -/
def now_iso (s : Store) : Nat × Store :=
  (s.clock, { s with clock := s.clock + 1 })

/-- `create_conversation(title, system_prompt)`: one INSERT with
`created_at = updated_at = now_iso()`; returns the fresh row id
(`cursor.lastrowid`). -/
def create_conversation (s : Store) (title : String) (system_prompt : String) :
    Nat × Store :=
  let (timestamp, s1) := now_iso s
  let cid := s1.nextConvId
  (cid,
    { s1 with
        conversations :=
          s1.conversations ++ [⟨cid, title, system_prompt, timestamp, timestamp⟩]
        nextConvId := cid + 1 })

/-- One row of the `list_conversations` query result: the conversation
columns plus `COUNT(m.id) AS message_count`. -/
structure ConvSummary where
  id : Nat
  title : String
  system_prompt : String
  created_at : Nat
  updated_at : Nat
  message_count : Nat
  deriving Repr, DecidableEq

/-- The `ORDER BY c.updated_at DESC` ordering of `list_conversations`
(ISO-8601 strings compare lexicographically, i.e. chronologically). -/
def updatedDesc (a b : ConvSummary) : Prop :=
  b.updated_at ≤ a.updated_at

instance : DecidableRel updatedDesc := fun _ _ => Nat.decLe _ _

instance : IsTotal ConvSummary updatedDesc :=
  ⟨fun a b => Nat.le_total b.updated_at a.updated_at⟩

instance : IsTrans ConvSummary updatedDesc :=
  ⟨fun _ _ _ hab hbc => Nat.le_trans hbc hab⟩

/-- The `LEFT JOIN … GROUP BY c.id` row built for one conversation:
`message_count` counts the messages owned by it (0 when none join). -/
def summarize (s : Store) (c : Conversation) : ConvSummary :=
  ⟨c.id, c.title, c.system_prompt, c.created_at, c.updated_at,
    (s.messages.filter (fun m => m.conversation_id == c.id)).length⟩

/-- `list_conversations()`: one summary row per conversation, ordered by
`updated_at` descending. -/
def list_conversations (s : Store) : List ConvSummary :=
  List.insertionSort updatedDesc (s.conversations.map (summarize s))

/-- `get_conversation(conversation_id)`: `SELECT … WHERE id = ?` with
`fetchone`; `None` when no row matches. -/
def get_conversation (s : Store) (conversation_id : Nat) : Option Conversation :=
  s.conversations.find? (fun c => c.id == conversation_id)

/-- The `ORDER BY id ASC` ordering of `list_messages`. -/
def msgIdLe (a b : Message) : Prop :=
  a.id ≤ b.id

instance : DecidableRel msgIdLe := fun _ _ => Nat.decLe _ _

/-- `list_messages(conversation_id)`: all rows with this
`conversation_id`, ordered by `id` ascending. -/
def list_messages (s : Store) (conversation_id : Nat) : List Message :=
  List.insertionSort msgIdLe
    (s.messages.filter (fun m => m.conversation_id == conversation_id))

/-- `update_conversation(conversation_id, title, system_prompt)`: builds an
UPDATE that sets `title` / `system_prompt` only when the argument is not
`None`, and always sets `updated_at = now_iso()`; a nonexistent id updates
zero rows. -/
def update_conversation (s : Store) (conversation_id : Nat)
    (title : Option String) (system_prompt : Option String) : Store :=
  let (t, s1) := now_iso s
  { s1 with
      conversations := s1.conversations.map fun c =>
        if c.id = conversation_id then
          { c with
              title := title.getD c.title
              system_prompt := system_prompt.getD c.system_prompt
              updated_at := t }
        else c }

/-- `append_message(conversation_id, role, content)`: INSERT one message
row (timestamp from a first `now_iso()` call), then UPDATE the
conversation's `updated_at` (a second `now_iso()` call).  The SQLite CHECK
on `role` and the foreign key are enforced by the Router before every call
in the source, so this models the successful path. -/
def append_message (s : Store) (conversation_id : Nat)
    (role : String) (content : String) : Store :=
  let (t1, s1) := now_iso s
  let s2 :=
    { s1 with
        messages := s1.messages ++ [⟨s1.nextMsgId, conversation_id, role, content, t1⟩]
        nextMsgId := s1.nextMsgId + 1 }
  let (t2, s3) := now_iso s2
  { s3 with
      conversations := s3.conversations.map fun c =>
        if c.id = conversation_id then { c with updated_at := t2 } else c }

/-- The `for message in messages:` INSERT loop of `replace_messages`: each
iteration inserts one row with a fresh id and its own `now_iso()`
timestamp. -/
def insertMessagesLoop (conversation_id : Nat) :
    Store → List (String × String) → Store
  | s, [] => s
  | s, (role, content) :: rest =>
    let (t, s1) := now_iso s
    insertMessagesLoop conversation_id
      { s1 with
          messages := s1.messages ++ [⟨s1.nextMsgId, conversation_id, role, content, t⟩]
          nextMsgId := s1.nextMsgId + 1 }
      rest

/-- `replace_messages(conversation_id, messages)`: in one transaction,
DELETE all rows of the conversation, INSERT the given `(role, content)`
pairs in order, then UPDATE the conversation's `updated_at = now_iso()`. -/
def replace_messages (s : Store) (conversation_id : Nat)
    (msgs : List (String × String)) : Store :=
  let s0 :=
    { s with messages := s.messages.filter (fun m => m.conversation_id != conversation_id) }
  let s1 := insertMessagesLoop conversation_id s0 msgs
  let (t, s2) := now_iso s1
  { s2 with
      conversations := s2.conversations.map fun c =>
        if c.id = conversation_id then { c with updated_at := t } else c }

/-- A JSON message dictionary as read by `llm_chat` and the Router:
`message.get("role")` and `message.get("content")` may both be absent. -/
structure ChatMsg where
  role : Option String
  content : Option String
  deriving Repr, DecidableEq

/-- The `for message in reversed(messages): if message.get("role") ==
"user": last_user = message.get("content", ""); break` loop of the
fallback branch of `llm_chat`, applied to the already-reversed list. -/
def lastUserLoop : List ChatMsg → String
  | [] => ""
  | m :: rest =>
    if m.role == some "user" then m.content.getD "" else lastUserLoop rest

/-- Outcome of the single outbound HTTP attempt of `llm_chat`:
`urllib.error.HTTPError` (non-2xx status with body) or
`urllib.error.URLError` (transport failure). -/
inductive NetErr where
  | httpError (code : Nat) (detail : String)
  | urlError (reason : String)
  deriving Repr, DecidableEq

/-- `choices[0].get("message", {})` of the upstream JSON: the `content`
key may be absent. -/
structure ChoiceMessage where
  content : Option String
  deriving Repr, DecidableEq

/-- One element of the upstream `choices` list: the `message` key may be
absent (`.get("message", {})`). -/
structure Choice where
  message : Option ChoiceMessage
  deriving Repr, DecidableEq

/-- The decoded 2xx upstream response body: the `choices` key may be
absent (`data.get("choices") or []`). -/
structure ChatResponse where
  choices : Option (List Choice)
  deriving Repr, DecidableEq

/-- `llm_chat(messages)`.  `api_key` is `os.environ.get("LLM_API_KEY")`;
`if not api_key` (absent or empty) selects the deterministic mock branch,
which performs no network I/O.  Otherwise `net` is the outcome of the one
outbound POST: transport errors are re-raised as `RuntimeError` (modelled
`Except.error`), and a 2xx body with no choices or no/empty assistant
content (`if not content` is true for both `None` and `""`) also raises. -/
def llm_chat (api_key : Option String) (messages : List ChatMsg)
    (net : Except NetErr ChatResponse) : Except String String :=
  if api_key.getD "" = "" then
    let last_user := lastUserLoop messages.reverse
    .ok ("[mock backend reply] Set LLM_API_KEY to call a real model. Last user message: "
      ++ last_user)
  else
    match net with
    | .error (.httpError code detail) =>
      .error ("LLM request failed (" ++ toString code ++ "): " ++ detail)
    | .error (.urlError reason) =>
      .error ("LLM connection failed: " ++ reason)
    | .ok data =>
      match data.choices.getD [] with
      | [] => .error "LLM response did not include choices"
      | choice :: _ =>
        match (choice.message.getD ⟨none⟩).content with
        | none => .error "LLM response did not include assistant content"
        | some content =>
          if content = "" then .error "LLM response did not include assistant content"
          else .ok content

/-- The `messages` key of a request body: absent (`.get("messages", [])`
defaults to `[]`), present but not a JSON array (`isinstance` check
fails), or a list of message dictionaries. -/
inductive MessagesField where
  | absent
  | notList
  | list (msgs : List ChatMsg)
  deriving Repr, DecidableEq

/-- A parsed JSON request body, holding every key any handler reads
(`_read_json` yields `{}` for an absent body: all fields absent). -/
structure ReqBody where
  title : Option String
  systemPrompt : Option String
  role : Option String
  content : Option String
  messages : MessagesField
  deriving Repr, DecidableEq

/-- Python's `x or d` on an optional string: `d` when the key is absent or
the value is the empty string (falsy), the value otherwise. -/
def pyOr (v : Option String) (d : String) : String :=
  match v with
  | none => d
  | some str => if str = "" then d else str

/-- `role in {"user", "assistant", "system"}` for a present role value. -/
def validRoleStr (r : String) : Bool :=
  r == "user" || r == "assistant" || r == "system"

/-- `body.get("role") in {"user", "assistant", "system"}`: an absent role
(`None`) is never in the set. -/
def validRole : Option String → Bool
  | some r => validRoleStr r
  | none => false

/-- The JSON payload a handler passes to `_json_response`. -/
inductive RespBody where
  | conversations (items : List ConvSummary)
  | conversation (item : Option Conversation)
  | messages (items : List Message)
  | ok
  | reply (text : String)
  | error (message : String)
  deriving Repr, DecidableEq

/-- A handler's response: a JSON response with a status code, the GET
fall-through to `_serve_static`, or `send_error(404)` for an unmatched
POST/PUT path. -/
inductive Resp where
  | json (status : Nat) (body : RespBody)
  | static (path : String)
  | notFound
  deriving Repr, DecidableEq

/-- Python `s.startswith(pat)`. -/
def pyStartsWith (s pat : String) : Bool :=
  pat.data.isPrefixOf s.data

/-- Python `s.endswith(pat)`. -/
def pyEndsWith (s pat : String) : Bool :=
  pat.data.isSuffixOf s.data

/-- Python `s.split("/")` on the character list: splitting an empty string
gives `[""]`, a leading separator contributes a leading `""`, and so on. -/
def splitSlash : List Char → List (List Char)
  | [] => [[]]
  | c :: rest =>
    match splitSlash rest with
    | [] => [[]]
    | seg :: segs =>
      if c = '/' then [] :: seg :: segs else (c :: seg) :: segs

/-- Python `path.split("/")`. -/
def pySplitSlash (s : String) : List String :=
  (splitSlash s.data).map (fun cs => ⟨cs⟩)

/-- Python `int(text)` for the canonical spellings of non-negative
decimal numbers; `none` models the `ValueError` the handlers catch.
(Python's `int` also tolerates surrounding whitespace and a sign; such
non-canonical spellings are outside this model.) -/
def pyInt? (s : String) : Option Nat :=
  if !s.data.isEmpty && s.data.all Char.isDigit then
    some (s.data.foldl (fun n c => n * 10 + (c.toNat - '0'.toNat)) 0)
  else none

/-- `int(path.split("/")[3])`: the conversation id is the third slash
segment; a missing segment (IndexError) or non-numeric text (ValueError)
yields `none`, which the handlers turn into the 400 "invalid conversation
id" response. -/
def parse_conversation_id (path : String) : Option Nat :=
  pyInt? ((pySplitSlash path).getD 3 "")

/-- The `cleaned` loop of `do_PUT`: validates every message's role and
defaults every absent content to `""`; `none` as soon as one role is
absent or invalid (the handler returns 400 there). -/
def cleanMessages : List ChatMsg → Option (List (String × String))
  | [] => some []
  | m :: rest =>
    match m.role with
    | none => none
    | some role =>
      if validRoleStr role then
        (cleanMessages rest).map (fun cl => (role, m.content.getD "") :: cl)
      else none

/-- `Handler.do_GET`: the conversations listing, the messages listing
(path starts with `/api/conversations/` and ends with `/messages`, id
taken from the third segment), else static file serving. -/
def do_GET (s : Store) (path : String) : Resp :=
  if path = "/api/conversations" then
    .json 200 (.conversations (list_conversations s))
  else if pyStartsWith path "/api/conversations/" && pyEndsWith path "/messages" then
    match parse_conversation_id path with
    | none => .json 400 (.error "invalid conversation id")
    | some conversation_id =>
      if (get_conversation s conversation_id).isNone then
        .json 404 (.error "conversation not found")
      else
        .json 200 (.messages (list_messages s conversation_id))
  else
    .static path

/-- `Handler.do_POST`: create a conversation (title and systemPrompt
default through Python `or`), append one message (role validated, content
defaulting to `""`), or relay to `llm_chat`; unmatched paths get
`send_error(404)`.  Returns the response together with the store after the
request. -/
def do_POST (api_key : Option String) (net : Except NetErr ChatResponse)
    (s : Store) (path : String) (body : ReqBody) : Resp × Store :=
  if path = "/api/conversations" then
    let title := pyOr body.title "New conversation"
    let system_prompt := pyOr body.systemPrompt ""
    let (conversation_id, s1) := create_conversation s title system_prompt
    (.json 201 (.conversation (get_conversation s1 conversation_id)), s1)
  else if pyStartsWith path "/api/conversations/" && pyEndsWith path "/messages" then
    match parse_conversation_id path with
    | none => (.json 400 (.error "invalid conversation id"), s)
    | some conversation_id =>
      if (get_conversation s conversation_id).isNone then
        (.json 404 (.error "conversation not found"), s)
      else
        match body.role with
        | none => (.json 400 (.error "invalid role"), s)
        | some role =>
          if validRoleStr role then
            (.json 201 .ok, append_message s conversation_id role (body.content.getD ""))
          else
            (.json 400 (.error "invalid role"), s)
  else if path = "/api/chat" then
    match body.messages with
    | .notList => (.json 400 (.error "messages must be an array"), s)
    | .absent =>
      match llm_chat api_key [] net with
      | .error e => (.json 500 (.error e), s)
      | .ok reply => (.json 200 (.reply reply), s)
    | .list msgs =>
      match llm_chat api_key msgs net with
      | .error e => (.json 500 (.error e), s)
      | .ok reply => (.json 200 (.reply reply), s)
  else
    (.notFound, s)

/-- `Handler.do_PUT`: update a conversation's metadata (path under
`/api/conversations/` not ending in `/messages`) or replace a
conversation's messages (path ending in `/messages`, every role
validated before any write); unmatched paths get `send_error(404)`. -/
def do_PUT (s : Store) (path : String) (body : ReqBody) : Resp × Store :=
  if pyStartsWith path "/api/conversations/" && !pyEndsWith path "/messages" then
    match parse_conversation_id path with
    | none => (.json 400 (.error "invalid conversation id"), s)
    | some conversation_id =>
      if (get_conversation s conversation_id).isNone then
        (.json 404 (.error "conversation not found"), s)
      else
        let s1 := update_conversation s conversation_id body.title body.systemPrompt
        (.json 200 (.conversation (get_conversation s1 conversation_id)), s1)
  else if pyStartsWith path "/api/conversations/" && pyEndsWith path "/messages" then
    match parse_conversation_id path with
    | none => (.json 400 (.error "invalid conversation id"), s)
    | some conversation_id =>
      if (get_conversation s conversation_id).isNone then
        (.json 404 (.error "conversation not found"), s)
      else
        match body.messages with
        | .notList => (.json 400 (.error "messages must be an array"), s)
        | .absent =>
          match cleanMessages [] with
          | none => (.json 400 (.error "invalid role in messages"), s)
          | some cleaned => (.json 200 .ok, replace_messages s conversation_id cleaned)
        | .list msgs =>
          match cleanMessages msgs with
          | none => (.json 400 (.error "invalid role in messages"), s)
          | some cleaned => (.json 200 .ok, replace_messages s conversation_id cleaned)
  else
    (.notFound, s)

/-- Well-formedness of a reachable store: row ids are below the
AUTOINCREMENT counters, message rows sit in strictly increasing id order
(insertion order), and stored timestamps never exceed the clock. -/
def Store.WF (s : Store) : Prop :=
  (∀ c ∈ s.conversations, c.id < s.nextConvId) ∧
  s.messages.Pairwise (fun a b => a.id < b.id) ∧
  (∀ m ∈ s.messages, m.id < s.nextMsgId) ∧
  (∀ c ∈ s.conversations, c.created_at ≤ s.clock ∧ c.updated_at ≤ s.clock)

instance (s : Store) : Decidable s.WF := by
  unfold Store.WF
  infer_instance

/-- A small reachable store used to instantiate hypotheses: the empty
database after one `create_conversation` call. -/
def demoStore : Store :=
  (create_conversation ⟨[], [], 1, 1, 0⟩ "greetings" "be brief").2

/-- The claim's reading of the fallback scan: the most recent message
whose role is "user", found by scanning from the end of the list backward
(empty string when none exists). -/
def lastUserSpec (messages : List ChatMsg) : String :=
  match messages.reverse.find? (fun m => m.role == some "user") with
  | some m => m.content.getD ""
  | none => ""

theorem lastUserLoop_eq_find (l : List ChatMsg) :
    lastUserLoop l =
      (match l.find? (fun m => m.role == some "user") with
       | some m => m.content.getD ""
       | none => "") := by
  induction l with
  | nil => rfl
  | cons m rest ih =>
    cases hb : (m.role == some "user") with
    | true => simp [lastUserLoop, List.find?_cons, hb]
    | false => simp [lastUserLoop, List.find?_cons, hb, ih]

/-- C1: with no API credential configured, `llm_chat` performs no network
I/O (its result does not depend on the outcome of the network call) and
returns, never raising, the fixed-format mock string whose suffix is the
literal content of the most recent message with role "user" found by
scanning the list from the end backward (the empty string when no user
message exists). -/
theorem llm_chat_no_credential_mock (messages : List ChatMsg)
    (net net' : Except NetErr ChatResponse) :
    llm_chat none messages net =
      .ok ("[mock backend reply] Set LLM_API_KEY to call a real model. Last user message: "
        ++ lastUserSpec messages)
    ∧ llm_chat none messages net = llm_chat none messages net' := by
  constructor
  · simp [llm_chat, lastUserSpec, lastUserLoop_eq_find]
  · rfl

/-- C2: with a credential configured and a 2xx upstream body, `llm_chat`
fails with an upstream error when the choices list is missing or empty or
the first choice's content is missing or empty, never returns an `ok` with
empty text, and otherwise returns the first choice's content verbatim. -/
theorem llm_chat_upstream_extraction (k : String) (messages : List ChatMsg)
    (data : ChatResponse) (hk : k ≠ "") :
    (data.choices.getD [] = [] →
      llm_chat (some k) messages (.ok data)
        = .error "LLM response did not include choices")
    ∧ (∀ choice rest, data.choices = some (choice :: rest) →
        ((choice.message.getD ⟨none⟩).content = none
          ∨ (choice.message.getD ⟨none⟩).content = some "") →
        llm_chat (some k) messages (.ok data)
          = .error "LLM response did not include assistant content")
    ∧ (∀ choice rest text, data.choices = some (choice :: rest) →
        (choice.message.getD ⟨none⟩).content = some text → text ≠ "" →
        llm_chat (some k) messages (.ok data) = .ok text)
    ∧ (∀ reply, llm_chat (some k) messages (.ok data) = .ok reply → reply ≠ "") := by
  refine ⟨?_, ?_, ?_, ?_⟩
  · intro h
    simp [llm_chat, hk, h]
  · intro choice rest hch hc
    rcases hc with hc | hc <;> simp [llm_chat, hk, hch, hc]
  · intro choice rest text hch hc ht
    simp [llm_chat, hk, hch, hc, ht]
  · intro reply h hr
    subst hr
    rcases hd : data.choices.getD [] with _ | ⟨choice, rest⟩
    · simp [llm_chat, hk, hd] at h
    · rcases hc : (choice.message.getD ⟨none⟩).content with _ | text
      · simp [llm_chat, hk, hd, hc] at h
      · by_cases ht : text = ""
        · simp [llm_chat, hk, hd, hc, ht] at h
        · simp [llm_chat, hk, hd, hc, ht] at h

theorem find?_map_ite (l : List Conversation) (cid : Nat)
    (g : Conversation → Conversation) (hg : ∀ c, (g c).id = c.id) :
    (l.map fun c => if c.id = cid then g c else c).find? (fun c => c.id == cid)
      = (l.find? (fun c => c.id == cid)).map fun c => if c.id = cid then g c else c := by
  induction l with
  | nil => rfl
  | cons a l ih =>
    by_cases h : a.id = cid
    · simp [List.find?_cons, h, hg]
    · simp [List.find?_cons, h, ih]

theorem find?_map_ite_found (l : List Conversation) (cid : Nat)
    (g : Conversation → Conversation) (hg : ∀ c, (g c).id = c.id) :
    (l.map fun c => if c.id = cid then g c else c).find? (fun c => c.id == cid)
      = (l.find? (fun c => c.id == cid)).map g := by
  rw [find?_map_ite l cid g hg]
  cases h : l.find? (fun c => c.id == cid) with
  | none => rfl
  | some c =>
    have hc := List.find?_some h
    simp only [beq_iff_eq] at hc
    simp [hc]

theorem find?_append_of_none (l₁ l₂ : List Conversation) (p : Conversation → Bool)
    (h : ∀ a ∈ l₁, p a = false) :
    (l₁ ++ l₂).find? p = l₂.find? p := by
  induction l₁ with
  | nil => rfl
  | cons a l ih =>
    have ha := h a (List.mem_cons_self a l)
    simp only [List.cons_append, List.find?_cons, ha]
    exact ih fun b hb => h b (List.mem_cons_of_mem a hb)

theorem get_conversation_update (s : Store) (cid : Nat) (t? p? : Option String) :
    get_conversation (update_conversation s cid t? p?) cid
      = (get_conversation s cid).map fun c =>
          { c with
              title := t?.getD c.title
              system_prompt := p?.getD c.system_prompt
              updated_at := s.clock } := by
  simp only [get_conversation, update_conversation, now_iso]
  exact find?_map_ite_found _ _ _ fun c => rfl

theorem get_conversation_append (s : Store) (cid : Nat) (role content : String) :
    get_conversation (append_message s cid role content) cid
      = (get_conversation s cid).map fun c => { c with updated_at := s.clock + 1 } := by
  simp only [get_conversation, append_message, now_iso]
  exact find?_map_ite_found _ _ _ fun c => rfl

/-- The rows inserted by the loop of `replace_messages`, given the value
of the AUTOINCREMENT counter and of the clock when the loop starts. -/
def newMessages (conversation_id : Nat) :
    List (String × String) → Nat → Nat → List Message
  | [], _, _ => []
  | (role, content) :: rest, i, t =>
    ⟨i, conversation_id, role, content, t⟩ :: newMessages conversation_id rest (i + 1) (t + 1)

theorem insertMessagesLoop_eq (cid : Nat) (msgs : List (String × String)) :
    ∀ s : Store,
      insertMessagesLoop cid s msgs
        = { s with
              messages := s.messages ++ newMessages cid msgs s.nextMsgId s.clock
              nextMsgId := s.nextMsgId + msgs.length
              clock := s.clock + msgs.length } := by
  induction msgs with
  | nil => intro s; simp [insertMessagesLoop, newMessages]
  | cons p rest ih =>
    intro s
    obtain ⟨role, content⟩ := p
    simp only [insertMessagesLoop, now_iso, ih, newMessages, List.length_cons]
    simp [List.append_assoc]
    omega

theorem replace_messages_eq (s : Store) (cid : Nat) (msgs : List (String × String)) :
    replace_messages s cid msgs
      = { s with
            messages := s.messages.filter (fun m => m.conversation_id != cid)
                          ++ newMessages cid msgs s.nextMsgId s.clock
            nextMsgId := s.nextMsgId + msgs.length
            clock := s.clock + msgs.length + 1
            conversations := s.conversations.map fun c =>
              if c.id = cid then { c with updated_at := s.clock + msgs.length } else c } := by
  simp [replace_messages, insertMessagesLoop_eq, now_iso]

theorem get_conversation_replace (s : Store) (cid : Nat) (msgs : List (String × String)) :
    get_conversation (replace_messages s cid msgs) cid
      = (get_conversation s cid).map fun c =>
          { c with updated_at := s.clock + msgs.length } := by
  rw [replace_messages_eq]
  simp only [get_conversation]
  exact find?_map_ite_found _ _ _ fun c => rfl

theorem newMessages_map_rc (cid : Nat) :
    ∀ (msgs : List (String × String)) (i t : Nat),
      (newMessages cid msgs i t).map (fun m => (m.role, m.content)) = msgs := by
  intro msgs
  induction msgs with
  | nil => intro i t; rfl
  | cons p rest ih =>
    intro i t
    obtain ⟨role, content⟩ := p
    simp [newMessages, ih]

theorem newMessages_map_id (cid : Nat) :
    ∀ (msgs : List (String × String)) (i t : Nat),
      (newMessages cid msgs i t).map Message.id = List.range' i msgs.length := by
  intro msgs
  induction msgs with
  | nil => intro i t; rfl
  | cons p rest ih =>
    intro i t
    obtain ⟨role, content⟩ := p
    simp [newMessages, ih, List.range'_succ]

theorem newMessages_cid (cid : Nat) :
    ∀ (msgs : List (String × String)) (i t : Nat),
      ∀ m ∈ newMessages cid msgs i t, m.conversation_id = cid := by
  intro msgs
  induction msgs with
  | nil => intro i t m hm; cases hm
  | cons p rest ih =>
    obtain ⟨role, content⟩ := p
    intro i t m hm
    rcases List.mem_cons.mp hm with hm | hm
    · rw [hm]
    · exact ih (i + 1) (t + 1) m hm

theorem newMessages_id_ge (cid : Nat) :
    ∀ (msgs : List (String × String)) (i t : Nat),
      ∀ m ∈ newMessages cid msgs i t, i ≤ m.id := by
  intro msgs
  induction msgs with
  | nil => intro i t m hm; cases hm
  | cons p rest ih =>
    obtain ⟨role, content⟩ := p
    intro i t m hm
    rcases List.mem_cons.mp hm with hm | hm
    · rw [hm]
    · exact Nat.le_of_succ_le (ih (i + 1) (t + 1) m hm)

theorem newMessages_pairwise (cid : Nat) (msgs : List (String × String)) (i t : Nat) :
    (newMessages cid msgs i t).Pairwise (fun a b => a.id < b.id) := by
  have h := List.pairwise_map
    (f := Message.id) (R := fun a b : Nat => a < b) (l := newMessages cid msgs i t)
  rw [newMessages_map_id] at h
  exact h.mp (List.pairwise_lt_range' i msgs.length 1 (by omega))

theorem newMessages_sorted (cid : Nat) (msgs : List (String × String)) (i t : Nat) :
    List.Sorted msgIdLe (newMessages cid msgs i t) :=
  (newMessages_pairwise cid msgs i t).imp fun h => Nat.le_of_lt h

theorem list_messages_replace (s : Store) (cid : Nat) (msgs : List (String × String)) :
    list_messages (replace_messages s cid msgs) cid
      = newMessages cid msgs s.nextMsgId s.clock := by
  rw [replace_messages_eq]
  simp only [list_messages, List.filter_append]
  have h1 : (s.messages.filter (fun m => m.conversation_id != cid)).filter
      (fun m => m.conversation_id == cid) = [] := by
    rw [List.filter_eq_nil_iff]
    intro a ha
    have hne := List.of_mem_filter ha
    simp only [bne_iff_ne, ne_eq] at hne
    simp [hne]
  have h2 : (newMessages cid msgs s.nextMsgId s.clock).filter
      (fun m => m.conversation_id == cid) = newMessages cid msgs s.nextMsgId s.clock := by
    rw [List.filter_eq_self]
    intro a ha
    simp [newMessages_cid cid msgs _ _ a ha]
  rw [h1, h2, List.nil_append]
  exact (newMessages_sorted cid msgs _ _).insertionSort_eq

/-- C4: after `replace_messages` with any ordered list of (role, content)
pairs, `list_messages` returns exactly those roles and contents in the
given order; the identifiers are the fresh consecutive counter values
(hence strictly ascending and at least the pre-call counter value); the
conversation keeps existing; and the empty list leaves zero messages. -/
theorem replace_messages_then_list (s : Store) (cid : Nat)
    (msgs : List (String × String)) :
    ((list_messages (replace_messages s cid msgs) cid).map
        (fun m => (m.role, m.content)) = msgs)
    ∧ ((list_messages (replace_messages s cid msgs) cid).map Message.id
        = List.range' s.nextMsgId msgs.length)
    ∧ (((list_messages (replace_messages s cid msgs) cid).map Message.id).Pairwise (· < ·))
    ∧ (∀ m ∈ list_messages (replace_messages s cid msgs) cid, s.nextMsgId ≤ m.id)
    ∧ ((get_conversation (replace_messages s cid msgs) cid).isSome
        = (get_conversation s cid).isSome)
    ∧ (msgs = [] → list_messages (replace_messages s cid msgs) cid = []) := by
  refine ⟨?_, ?_, ?_, ?_, ?_, ?_⟩
  · rw [list_messages_replace]
    exact newMessages_map_rc cid msgs _ _
  · rw [list_messages_replace]
    exact newMessages_map_id cid msgs _ _
  · rw [list_messages_replace, newMessages_map_id]
    exact List.pairwise_lt_range' _ _
  · rw [list_messages_replace]
    exact newMessages_id_ge cid msgs _ _
  · rw [get_conversation_replace]
    cases get_conversation s cid <;> rfl
  · intro h
    subst h
    rw [list_messages_replace]
    rfl

theorem get_conversation_create (s : Store) (title sp : String)
    (hlt : ∀ c ∈ s.conversations, c.id < s.nextConvId) :
    get_conversation (create_conversation s title sp).2 (create_conversation s title sp).1
      = some ⟨s.nextConvId, title, sp, s.clock, s.clock⟩ := by
  simp only [create_conversation, now_iso, get_conversation]
  rw [find?_append_of_none]
  · simp [List.find?_cons]
  · intro a ha
    rw [beq_eq_false_iff_ne]
    exact Nat.ne_of_lt (hlt a ha)

/-- C5: a conversation's `updated_at` equals its `created_at` right after
`create_conversation`, and each of `append_message`, `replace_messages`
and `update_conversation` moves `updated_at` to a fresh clock value that
is at least the previous `updated_at` and at least `created_at` (it never
decreases). -/
theorem conversation_timestamps_monotone (s : Store) (cid : Nat) (c : Conversation)
    (title sp role content : String) (msgs : List (String × String))
    (t? p? : Option String) (hWF : s.WF) (hc : get_conversation s cid = some c) :
    (get_conversation (create_conversation s title sp).2 (create_conversation s title sp).1
        = some ⟨s.nextConvId, title, sp, s.clock, s.clock⟩)
    ∧ (get_conversation (append_message s cid role content) cid
          = some { c with updated_at := s.clock + 1 }
        ∧ c.updated_at ≤ s.clock + 1 ∧ c.created_at ≤ s.clock + 1)
    ∧ (get_conversation (replace_messages s cid msgs) cid
          = some { c with updated_at := s.clock + msgs.length }
        ∧ c.updated_at ≤ s.clock + msgs.length ∧ c.created_at ≤ s.clock + msgs.length)
    ∧ (get_conversation (update_conversation s cid t? p?) cid
          = some { c with
                     title := t?.getD c.title
                     system_prompt := p?.getD c.system_prompt
                     updated_at := s.clock }
        ∧ c.updated_at ≤ s.clock ∧ c.created_at ≤ s.clock) := by
  obtain ⟨hconv, hpw, hmlt, htime⟩ := hWF
  have hmem : c ∈ s.conversations := List.mem_of_find?_eq_some hc
  have ht := htime c hmem
  refine ⟨?_, ⟨?_, ?_, ?_⟩, ⟨?_, ?_, ?_⟩, ⟨?_, ?_, ?_⟩⟩
  · exact get_conversation_create s title sp hconv
  · rw [get_conversation_append, hc]; rfl
  · omega
  · omega
  · rw [get_conversation_replace, hc]; rfl
  · omega
  · omega
  · rw [get_conversation_update, hc]; rfl
  · exact ht.2
  · exact ht.1

/-- C6: `update_conversation` keeps the id, `created_at` and every field
whose new value is absent (`none`) unchanged, applies a present value even
when it is the empty string, always stamps `updated_at` with the current
clock (also when both arguments are absent), and leaves the message table
untouched. -/
theorem update_conversation_frame (s : Store) (cid : Nat) (c : Conversation)
    (t? p? : Option String) (hc : get_conversation s cid = some c) :
    get_conversation (update_conversation s cid t? p?) cid
      = some { c with
                 title := t?.getD c.title
                 system_prompt := p?.getD c.system_prompt
                 updated_at := s.clock }
    ∧ (update_conversation s cid t? p?).messages = s.messages
    ∧ (∀ x, list_messages (update_conversation s cid t? p?) x = list_messages s x) := by
  refine ⟨?_, rfl, fun x => rfl⟩
  rw [get_conversation_update, hc]
  rfl

/-- C7: `list_conversations` has one entry per conversation, is ordered by
`updated_at` descending, reports as `message_count` the number of owned
messages (the length of that conversation's `list_messages`), and reports
0 for a conversation owning no message. -/
theorem list_conversations_spec (s : Store) :
    (list_conversations s).length = s.conversations.length
    ∧ List.Sorted updatedDesc (list_conversations s)
    ∧ (∀ c ∈ s.conversations, ∃ e ∈ list_conversations s,
        e.id = c.id ∧ e.updated_at = c.updated_at
          ∧ e.message_count = (list_messages s c.id).length)
    ∧ (∀ e ∈ list_conversations s,
        (∀ m ∈ s.messages, m.conversation_id ≠ e.id) → e.message_count = 0) := by
  refine ⟨?_, ?_, ?_, ?_⟩
  · rw [list_conversations, List.length_insertionSort, List.length_map]
  · exact List.sorted_insertionSort updatedDesc _
  · intro c hcmem
    refine ⟨summarize s c, ?_, rfl, rfl, ?_⟩
    · rw [list_conversations, List.mem_insertionSort]
      exact List.mem_map_of_mem _ hcmem
    · simp [summarize, list_messages, List.length_insertionSort]
  · intro e he hm
    rw [list_conversations, List.mem_insertionSort] at he
    obtain ⟨c, hcmem, rfl⟩ := List.mem_map.mp he
    simp only [summarize]
    rw [List.length_eq_zero, List.filter_eq_nil_iff]
    intro a ha
    simp only [beq_iff_eq]
    exact hm a ha

/-- C8: a POST to /api/conversations whose title is absent or empty
answers 201 with a conversation titled "New conversation", whose system
prompt defaults to the empty string when absent, and whose created and
updated timestamps are equal (both the current clock). -/
theorem create_conversation_defaults (s : Store) (body : ReqBody)
    (key : Option String) (net : Except NetErr ChatResponse)
    (hWF : s.WF) (ht : body.title = none ∨ body.title = some "") :
    do_POST key net s "/api/conversations" body
      = (.json 201 (.conversation (some ⟨s.nextConvId, "New conversation",
            pyOr body.systemPrompt "", s.clock, s.clock⟩)),
         (create_conversation s "New conversation" (pyOr body.systemPrompt "")).2)
    ∧ (body.systemPrompt = none → pyOr body.systemPrompt "" = "") := by
  have htitle : pyOr body.title "New conversation" = "New conversation" := by
    rcases ht with h | h <;> simp [pyOr, h]
  constructor
  · have base : do_POST key net s "/api/conversations" body
        = (.json 201 (.conversation (get_conversation
              (create_conversation s (pyOr body.title "New conversation")
                (pyOr body.systemPrompt "")).2
              (create_conversation s (pyOr body.title "New conversation")
                (pyOr body.systemPrompt "")).1)),
           (create_conversation s (pyOr body.title "New conversation")
             (pyOr body.systemPrompt "")).2) := rfl
    rw [base, htitle, get_conversation_create s _ _ hWF.1]
  · intro h
    simp [pyOr, h]

theorem cleanMessages_none_of_bad :
    ∀ msgs : List ChatMsg, (∃ mm ∈ msgs, validRole mm.role = false) →
      cleanMessages msgs = none := by
  intro msgs
  induction msgs with
  | nil =>
    rintro ⟨mm, hmm, -⟩
    cases hmm
  | cons m rest ih =>
    rintro ⟨mm, hmm, hbad⟩
    rcases List.mem_cons.mp hmm with hm | hm
    · subst hm
      cases hr : mm.role with
      | none => rw [cleanMessages, hr]
      | some r =>
        have hv : validRoleStr r = false := by
          rw [hr] at hbad
          exact hbad
        rw [cleanMessages, hr]
        simp [hv]
    · cases hr : m.role with
      | none => rw [cleanMessages, hr]
      | some r =>
        by_cases hv : validRoleStr r
        · rw [cleanMessages, hr, ih ⟨mm, hm, hbad⟩]
          simp [hv]
        · rw [cleanMessages, hr]
          simp [hv]

theorem cleanMessages_eq_of_ok :
    ∀ (msgs : List ChatMsg) (cl : List (String × String)),
      cleanMessages msgs = some cl →
      cl = msgs.map (fun m => (m.role.getD "", m.content.getD "")) := by
  intro msgs
  induction msgs with
  | nil =>
    intro cl h
    simp [cleanMessages] at h
    subst h
    rfl
  | cons m rest ih =>
    intro cl h
    cases hr : m.role with
    | none =>
      rw [cleanMessages, hr] at h
      cases h
    | some r =>
      rw [cleanMessages, hr] at h
      by_cases hv : validRoleStr r
      · cases hcl : cleanMessages rest with
        | none =>
          rw [hcl] at h
          simp [hv] at h
        | some cl' =>
          rw [hcl] at h
          simp [hv] at h
          rw [← h, List.map_cons, hr]
          simp [ih cl' hcl]
      · simp [hv] at h

theorem do_POST_messages_eq (key : Option String) (net : Except NetErr ChatResponse)
    (s : Store) (path : String) (body : ReqBody) (cid : Nat)
    (hstart : pyStartsWith path "/api/conversations/" = true)
    (hend : pyEndsWith path "/messages" = true)
    (hid : parse_conversation_id path = some cid) :
    do_POST key net s path body
      = (if (get_conversation s cid).isNone
         then (Resp.json 404 (RespBody.error "conversation not found"), s)
         else
           match body.role with
           | none => (Resp.json 400 (.error "invalid role"), s)
           | some role =>
             if validRoleStr role then
               (Resp.json 201 .ok, append_message s cid role (body.content.getD ""))
             else (Resp.json 400 (.error "invalid role"), s)) := by
  have hne : path ≠ "/api/conversations" := by
    intro h
    rw [h] at hend
    exact absurd hend (by decide)
  rw [do_POST, if_neg hne, hstart, hend, if_pos (by decide), hid]

theorem do_PUT_messages_eq (s : Store) (path : String) (body : ReqBody) (cid : Nat)
    (hstart : pyStartsWith path "/api/conversations/" = true)
    (hend : pyEndsWith path "/messages" = true)
    (hid : parse_conversation_id path = some cid) :
    do_PUT s path body
      = (if (get_conversation s cid).isNone
         then (Resp.json 404 (RespBody.error "conversation not found"), s)
         else
           match body.messages with
           | .notList => (Resp.json 400 (.error "messages must be an array"), s)
           | .absent =>
             match cleanMessages [] with
             | none => (Resp.json 400 (.error "invalid role in messages"), s)
             | some cleaned => (Resp.json 200 .ok, replace_messages s cid cleaned)
           | .list msgs =>
             match cleanMessages msgs with
             | none => (Resp.json 400 (.error "invalid role in messages"), s)
             | some cleaned => (Resp.json 200 .ok, replace_messages s cid cleaned)) := by
  have h1 : ¬((pyStartsWith path "/api/conversations/" && !pyEndsWith path "/messages") = true) := by
    rw [hend]
    simp
  rw [do_PUT, if_neg h1, hstart, hend, if_pos (by decide), hid]

/-- C3: for an existing conversation, a POST append whose role is absent
or outside {user, assistant, system}, and a PUT replace in which any
message's role is absent or invalid, both answer 400 and return the store
exactly as it was: the message list and the conversation row (hence its
`updated_at`) are untouched. -/
theorem invalid_role_rejected (s : Store) (cid : Nat) (c : Conversation)
    (path : String) (key : Option String) (net : Except NetErr ChatResponse)
    (body1 body2 : ReqBody) (msgs : List ChatMsg)
    (hstart : pyStartsWith path "/api/conversations/" = true)
    (hend : pyEndsWith path "/messages" = true)
    (hid : parse_conversation_id path = some cid)
    (hc : get_conversation s cid = some c)
    (hrole1 : validRole body1.role = false)
    (hmsgs : body2.messages = .list msgs)
    (hbad : ∃ mm ∈ msgs, validRole mm.role = false) :
    do_POST key net s path body1 = (.json 400 (.error "invalid role"), s)
    ∧ do_PUT s path body2 = (.json 400 (.error "invalid role in messages"), s)
    ∧ list_messages (do_POST key net s path body1).2 cid = list_messages s cid
    ∧ get_conversation (do_POST key net s path body1).2 cid = some c
    ∧ list_messages (do_PUT s path body2).2 cid = list_messages s cid
    ∧ get_conversation (do_PUT s path body2).2 cid = some c := by
  have hclean : cleanMessages msgs = none := cleanMessages_none_of_bad msgs hbad
  have hPOST : do_POST key net s path body1 = (.json 400 (.error "invalid role"), s) := by
    rw [do_POST_messages_eq key net s path body1 cid hstart hend hid, hc]
    cases hr : body1.role with
    | none => simp
    | some r =>
      have hv : validRoleStr r = false := by
        rw [hr] at hrole1
        exact hrole1
      simp [hv]
  have hPUT : do_PUT s path body2
      = (.json 400 (.error "invalid role in messages"), s) := by
    rw [do_PUT_messages_eq s path body2 cid hstart hend hid, hc, hmsgs]
    simp [hclean]
  exact ⟨hPOST, hPUT, by rw [hPOST], by rw [hPOST]; exact hc, by rw [hPUT],
    by rw [hPUT]; exact hc⟩

theorem list_messages_append_msg (s : Store) (cid : Nat) (role content : String)
    (hpw : s.messages.Pairwise (fun a b => a.id < b.id))
    (hlt : ∀ m ∈ s.messages, m.id < s.nextMsgId) :
    list_messages (append_message s cid role content) cid
      = list_messages s cid ++ [⟨s.nextMsgId, cid, role, content, s.clock⟩] := by
  have hmsgs : (append_message s cid role content).messages
      = s.messages ++ [⟨s.nextMsgId, cid, role, content, s.clock⟩] := rfl
  rw [list_messages, hmsgs, List.filter_append]
  have hnew : List.filter (fun m => m.conversation_id == cid)
      [(⟨s.nextMsgId, cid, role, content, s.clock⟩ : Message)]
      = [⟨s.nextMsgId, cid, role, content, s.clock⟩] := by simp
  rw [hnew]
  have hsor : List.Sorted msgIdLe
      (s.messages.filter (fun m => m.conversation_id == cid)) :=
    (hpw.filter _).imp fun h => Nat.le_of_lt h
  have hall : List.Sorted msgIdLe
      (s.messages.filter (fun m => m.conversation_id == cid)
        ++ [⟨s.nextMsgId, cid, role, content, s.clock⟩]) := by
    rw [List.Sorted, List.pairwise_append]
    refine ⟨hsor, List.pairwise_singleton _ _, ?_⟩
    intro a ha b hb
    rw [List.mem_singleton] at hb
    subst hb
    show a.id ≤ s.nextMsgId
    exact Nat.le_of_lt (hlt a (List.mem_of_mem_filter ha))
  rw [hall.insertionSort_eq, list_messages, hsor.insertionSort_eq]

/-- C10: for the message-accepting endpoints an absent content field is no
error: POST append stores the message with content `""`, and PUT replace
stores every message whose content is absent with content `""` (only the
role is required). -/
theorem absent_content_stored_empty (s : Store) (cid : Nat) (c : Conversation)
    (path : String) (key : Option String) (net : Except NetErr ChatResponse)
    (r : String) (msgs : List ChatMsg) (body1 body2 : ReqBody)
    (hWF : s.WF)
    (hstart : pyStartsWith path "/api/conversations/" = true)
    (hend : pyEndsWith path "/messages" = true)
    (hid : parse_conversation_id path = some cid)
    (hc : get_conversation s cid = some c)
    (hrole : body1.role = some r) (hvr : validRoleStr r = true)
    (hcont : body1.content = none)
    (hmsgs2 : body2.messages = .list msgs)
    (hcl : (cleanMessages msgs).isSome = true) :
    ((do_POST key net s path body1).1 = .json 201 .ok)
    ∧ (list_messages (do_POST key net s path body1).2 cid
        = list_messages s cid ++ [⟨s.nextMsgId, cid, r, "", s.clock⟩])
    ∧ ((do_PUT s path body2).1 = .json 200 .ok)
    ∧ ((list_messages (do_PUT s path body2).2 cid).map (fun m => (m.role, m.content))
        = msgs.map (fun m => (m.role.getD "", m.content.getD ""))) := by
  obtain ⟨cl, hcleq⟩ := Option.isSome_iff_exists.mp hcl
  have hPOST : do_POST key net s path body1
      = (.json 201 .ok, append_message s cid r "") := by
    rw [do_POST_messages_eq key net s path body1 cid hstart hend hid, hc]
    simp [hrole, hvr, hcont]
  have hPUT : do_PUT s path body2 = (.json 200 .ok, replace_messages s cid cl) := by
    rw [do_PUT_messages_eq s path body2 cid hstart hend hid, hc, hmsgs2]
    simp [hcleq]
  refine ⟨?_, ?_, ?_, ?_⟩
  · rw [hPOST]
  · rw [hPOST]
    exact list_messages_append_msg s cid r "" hWF.2.1 hWF.2.2.1
  · rw [hPUT]
  · rw [hPUT]
    show (list_messages (replace_messages s cid cl) cid).map _ = _
    rw [list_messages_replace, newMessages_map_rc]
    exact cleanMessages_eq_of_ok msgs cl hcleq

/-- The conversation row held by `demoStore`. -/
def demoConv : Conversation :=
  ⟨1, "greetings", "be brief", 0, 0⟩

/-- A concrete well-shaped upstream response body. -/
def demoResponse : ChatResponse :=
  ⟨some [⟨some ⟨some "hi"⟩⟩]⟩

/-- An append body whose role is not an accepted one. -/
def badRoleBody : ReqBody :=
  ⟨none, none, some "bogus", none, .absent⟩

/-- A replace list containing a message with an invalid role. -/
def badRoleList : List ChatMsg :=
  [⟨some "bogus", some "x"⟩]

/-- A replace body carrying `badRoleList`. -/
def badRolePutBody : ReqBody :=
  ⟨none, none, none, none, .list badRoleList⟩

/-- An append body with a valid role and no content field. -/
def userRoleBody : ReqBody :=
  ⟨none, none, some "user", none, .absent⟩

/-- A replace list whose only message has no content field. -/
def absentContentList : List ChatMsg :=
  [⟨some "user", none⟩]

/-- A replace body carrying `absentContentList`. -/
def absentContentPutBody : ReqBody :=
  ⟨none, none, none, none, .list absentContentList⟩

/-- An empty JSON request body (every key absent). -/
def emptyBody : ReqBody :=
  ⟨none, none, none, none, .absent⟩

/-- Witness for C2 at a concrete credential and response. -/
theorem llm_chat_upstream_extraction_witness :
    ("k" : String) ≠ ""
    ∧ ((demoResponse.choices.getD [] = [] →
        llm_chat (some "k") [] (.ok demoResponse)
          = .error "LLM response did not include choices")
      ∧ (∀ choice rest, demoResponse.choices = some (choice :: rest) →
          ((choice.message.getD ⟨none⟩).content = none
            ∨ (choice.message.getD ⟨none⟩).content = some "") →
          llm_chat (some "k") [] (.ok demoResponse)
            = .error "LLM response did not include assistant content")
      ∧ (∀ choice rest text, demoResponse.choices = some (choice :: rest) →
          (choice.message.getD ⟨none⟩).content = some text → text ≠ "" →
          llm_chat (some "k") [] (.ok demoResponse) = .ok text)
      ∧ (∀ reply, llm_chat (some "k") [] (.ok demoResponse) = .ok reply → reply ≠ "")) :=
  ⟨by decide, llm_chat_upstream_extraction "k" [] demoResponse (by decide)⟩

/-- Witness for C3 at a concrete store, path and bodies. -/
theorem invalid_role_rejected_witness :
    parse_conversation_id "/api/conversations/1/messages" = some 1
    ∧ get_conversation demoStore 1 = some demoConv
    ∧ validRole badRoleBody.role = false
    ∧ (∃ mm ∈ badRoleList, validRole mm.role = false)
    ∧ (do_POST none (.ok demoResponse) demoStore "/api/conversations/1/messages" badRoleBody
          = (.json 400 (.error "invalid role"), demoStore)
      ∧ do_PUT demoStore "/api/conversations/1/messages" badRolePutBody
          = (.json 400 (.error "invalid role in messages"), demoStore)
      ∧ list_messages (do_POST none (.ok demoResponse) demoStore
          "/api/conversations/1/messages" badRoleBody).2 1 = list_messages demoStore 1
      ∧ get_conversation (do_POST none (.ok demoResponse) demoStore
          "/api/conversations/1/messages" badRoleBody).2 1 = some demoConv
      ∧ list_messages (do_PUT demoStore "/api/conversations/1/messages" badRolePutBody).2 1
          = list_messages demoStore 1
      ∧ get_conversation (do_PUT demoStore
          "/api/conversations/1/messages" badRolePutBody).2 1 = some demoConv) :=
  ⟨by decide, by decide, by decide, by decide,
    invalid_role_rejected demoStore 1 demoConv "/api/conversations/1/messages" none
      (.ok demoResponse) badRoleBody badRolePutBody badRoleList (by decide) (by decide)
      (by decide) (by decide) (by decide) rfl (by decide)⟩

/-- Witness for C5 at a concrete store and conversation. -/
theorem conversation_timestamps_monotone_witness :
    demoStore.WF ∧ get_conversation demoStore 1 = some demoConv
    ∧ ((get_conversation (create_conversation demoStore "t" "p").2
          (create_conversation demoStore "t" "p").1
          = some ⟨demoStore.nextConvId, "t", "p", demoStore.clock, demoStore.clock⟩)
      ∧ (get_conversation (append_message demoStore 1 "user" "hi") 1
            = some { demoConv with updated_at := demoStore.clock + 1 }
          ∧ demoConv.updated_at ≤ demoStore.clock + 1
          ∧ demoConv.created_at ≤ demoStore.clock + 1)
      ∧ (get_conversation (replace_messages demoStore 1 [("user", "x")]) 1
            = some { demoConv with
                       updated_at := demoStore.clock + [("user", "x")].length }
          ∧ demoConv.updated_at ≤ demoStore.clock + [("user", "x")].length
          ∧ demoConv.created_at ≤ demoStore.clock + [("user", "x")].length)
      ∧ (get_conversation (update_conversation demoStore 1 none none) 1
            = some { demoConv with
                       title := (none : Option String).getD demoConv.title
                       system_prompt := (none : Option String).getD demoConv.system_prompt
                       updated_at := demoStore.clock }
          ∧ demoConv.updated_at ≤ demoStore.clock
          ∧ demoConv.created_at ≤ demoStore.clock)) :=
  ⟨by decide, by decide,
    conversation_timestamps_monotone demoStore 1 demoConv "t" "p" "user" "hi"
      [("user", "x")] none none (by decide) (by decide)⟩

/-- Witness for C6 at a concrete store, with a present-but-empty title. -/
theorem update_conversation_frame_witness :
    get_conversation demoStore 1 = some demoConv
    ∧ (get_conversation (update_conversation demoStore 1 (some "") none) 1
          = some { demoConv with
                     title := (some "").getD demoConv.title
                     system_prompt := (none : Option String).getD demoConv.system_prompt
                     updated_at := demoStore.clock }
      ∧ (update_conversation demoStore 1 (some "") none).messages = demoStore.messages
      ∧ (∀ x, list_messages (update_conversation demoStore 1 (some "") none) x
            = list_messages demoStore x)) :=
  ⟨by decide, update_conversation_frame demoStore 1 demoConv (some "") none (by decide)⟩

/-- Witness for C8 at a concrete store and an empty body. -/
theorem create_conversation_defaults_witness :
    demoStore.WF ∧ (emptyBody.title = none ∨ emptyBody.title = some "")
    ∧ (do_POST none (.ok demoResponse) demoStore "/api/conversations" emptyBody
          = (.json 201 (.conversation (some ⟨demoStore.nextConvId, "New conversation",
                pyOr emptyBody.systemPrompt "", demoStore.clock, demoStore.clock⟩)),
             (create_conversation demoStore "New conversation"
               (pyOr emptyBody.systemPrompt "")).2)
      ∧ (emptyBody.systemPrompt = none → pyOr emptyBody.systemPrompt "" = "")) :=
  ⟨by decide, Or.inl rfl,
    create_conversation_defaults demoStore emptyBody none (.ok demoResponse)
      (by decide) (Or.inl rfl)⟩

/-- Witness for C10 at a concrete store, path and bodies. -/
theorem absent_content_stored_empty_witness :
    demoStore.WF
    ∧ parse_conversation_id "/api/conversations/1/messages" = some 1
    ∧ get_conversation demoStore 1 = some demoConv
    ∧ userRoleBody.role = some "user" ∧ validRoleStr "user" = true
    ∧ userRoleBody.content = none
    ∧ (cleanMessages absentContentList).isSome = true
    ∧ (((do_POST none (.ok demoResponse) demoStore "/api/conversations/1/messages"
            userRoleBody).1 = .json 201 .ok)
      ∧ (list_messages (do_POST none (.ok demoResponse) demoStore
            "/api/conversations/1/messages" userRoleBody).2 1
          = list_messages demoStore 1
              ++ [⟨demoStore.nextMsgId, 1, "user", "", demoStore.clock⟩])
      ∧ ((do_PUT demoStore "/api/conversations/1/messages" absentContentPutBody).1
          = .json 200 .ok)
      ∧ ((list_messages (do_PUT demoStore "/api/conversations/1/messages"
            absentContentPutBody).2 1).map (fun m => (m.role, m.content))
          = absentContentList.map (fun m => (m.role.getD "", m.content.getD "")))) :=
  ⟨by decide, by decide, by decide, rfl, by decide, rfl, by decide,
    absent_content_stored_empty demoStore 1 demoConv "/api/conversations/1/messages"
      none (.ok demoResponse) "user" absentContentList userRoleBody absentContentPutBody
      (by decide) (by decide) (by decide) (by decide) (by decide) rfl (by decide) rfl rfl
      (by decide)⟩

theorem do_GET_messages_eq (s : Store) (path : String) (cid : Nat)
    (hstart : pyStartsWith path "/api/conversations/" = true)
    (hend : pyEndsWith path "/messages" = true)
    (hid : parse_conversation_id path = some cid) :
    do_GET s path
      = (if (get_conversation s cid).isNone
         then .json 404 (.error "conversation not found")
         else .json 200 (.messages (list_messages s cid))) := by
  have hne : path ≠ "/api/conversations" := by
    intro h
    rw [h] at hend
    exact absurd hend (by decide)
  rw [do_GET, if_neg hne, hstart, hend, if_pos (by decide), hid]

/-- C9: for every request path that starts with "/api/conversations/" and
ends with "/messages", GET and POST dispatch to the messages operation
using only the third path segment as the conversation id — regardless of
any extra intermediate segments — and never fall through to static file
serving: GET answers with the messages listing (or the 404 JSON), and any
two such paths whose third segment parses to the same id are handled
identically by GET and by POST. -/
theorem route_uses_only_third_segment (s : Store) (key : Option String)
    (net : Except NetErr ChatResponse) (body : ReqBody)
    (path path' : String) (cid : Nat)
    (hstart : pyStartsWith path "/api/conversations/" = true)
    (hend : pyEndsWith path "/messages" = true)
    (hid : parse_conversation_id path = some cid)
    (hstart' : pyStartsWith path' "/api/conversations/" = true)
    (hend' : pyEndsWith path' "/messages" = true)
    (hid' : parse_conversation_id path' = some cid) :
    (do_GET s path
      = if (get_conversation s cid).isNone
        then .json 404 (.error "conversation not found")
        else .json 200 (.messages (list_messages s cid)))
    ∧ (∀ q, do_GET s path ≠ .static q)
    ∧ do_GET s path = do_GET s path'
    ∧ do_POST key net s path body = do_POST key net s path' body := by
  have e1 := do_GET_messages_eq s path cid hstart hend hid
  have e2 := do_GET_messages_eq s path' cid hstart' hend' hid'
  have e3 := do_POST_messages_eq key net s path body cid hstart hend hid
  have e4 := do_POST_messages_eq key net s path' body cid hstart' hend' hid'
  refine ⟨e1, ?_, e1.trans e2.symm, e3.trans e4.symm⟩
  intro q
  rw [e1]
  cases (get_conversation s cid).isNone <;> simp

/-- Witness for C9 at the claim's example pair of paths. -/
theorem route_uses_only_third_segment_witness :
    pyStartsWith "/api/conversations/5/anything/messages" "/api/conversations/" = true
    ∧ pyEndsWith "/api/conversations/5/anything/messages" "/messages" = true
    ∧ parse_conversation_id "/api/conversations/5/anything/messages" = some 5
    ∧ parse_conversation_id "/api/conversations/5/messages" = some 5
    ∧ ((do_GET demoStore "/api/conversations/5/anything/messages"
          = if (get_conversation demoStore 5).isNone
            then .json 404 (.error "conversation not found")
            else .json 200 (.messages (list_messages demoStore 5)))
      ∧ (∀ q, do_GET demoStore "/api/conversations/5/anything/messages" ≠ .static q)
      ∧ do_GET demoStore "/api/conversations/5/anything/messages"
          = do_GET demoStore "/api/conversations/5/messages"
      ∧ do_POST none (.ok demoResponse) demoStore
            "/api/conversations/5/anything/messages" emptyBody
          = do_POST none (.ok demoResponse) demoStore
              "/api/conversations/5/messages" emptyBody) :=
  ⟨by decide, by decide, by decide, by decide,
    route_uses_only_third_segment demoStore none (.ok demoResponse) emptyBody
      "/api/conversations/5/anything/messages" "/api/conversations/5/messages" 5
      (by decide) (by decide) (by decide) (by decide) (by decide) (by decide)⟩
